import Mathlib

/-!
Verification of the move-only checker pass orchestrator
(`MoveOnlyCheckerPass::run`, `MoveOnlyChecker::checkObjects`,
`MoveOnlyChecker::checkAddresses` in
`lib/SILOptimizer/Mandatory/MoveOnlyChecker.cpp`).

The orchestrator is embedded shallowly.  The external collaborators whose
code is not part of the verified source (the two candidate searches, the
object and address checking engines, the repair/cleanup routine, the
fallback missed-copy sweep, the diagnostic emitter, and the
`isPossiblyUsedExternally` linkage query) are modelled from the spec as
oracle parameters gathered in an `Env` structure; the orchestrator is a
function of such an environment, so every theorem quantifying over `Env`
holds for every behaviour of those collaborators.
-/

namespace MoveOnly

/-- The SIL module stage (`SILStage`).  The pass asserts it runs on `raw`. -/
inductive SILStage
  | raw
  | canonical
  | lowered
deriving DecidableEq, Repr

/-- Linkage of a SIL function (`SILLinkage`), restricted to the
constructors the orchestrator distinguishes: `shared` is tested for and
rewritten to `privateL`; every other linkage is left alone. -/
inductive SILLinkage
  | publicL
  | hidden
  | shared
  | privateL
  | publicExternal
  | hiddenExternal
deriving DecidableEq, Repr

/-- A non-terminator SIL instruction, abstracted to a source location and
an opaque payload.  Only its location matters to the orchestrator (the
deletion fast path reuses the first instruction's location for the
`unreachable` it builds). -/
structure Inst where
  loc : Nat
  data : Nat
deriving DecidableEq, Repr

/-- The kind of a block terminator; the orchestrator only ever builds an
`unreachable` terminator. -/
inductive TermKind
  | unreachable
  | other (n : Nat)
deriving DecidableEq, Repr

/-- A block terminator: a kind plus a source location. -/
structure Terminator where
  loc : Nat
  kind : TermKind
deriving DecidableEq, Repr

/-- A SIL basic block: its non-terminator instructions followed by its
terminator (a well-formed block always ends in exactly one terminator). -/
structure Block where
  insts : List Inst
  term : Terminator
deriving DecidableEq, Repr

/-- The name of the `MOVEONLY_DELETE_IF_UNUSED` semantics attribute
(`semantics::MOVEONLY_DELETE_IF_UNUSED`). -/
def MOVEONLY_DELETE_IF_UNUSED : String := "MOVEONLY_DELETE_IF_UNUSED"

/-- The name of the `NO_MOVEONLY_DIAGNOSTICS` semantics attribute
(`semantics::NO_MOVEONLY_DIAGNOSTICS`). -/
def NO_MOVEONLY_DIAGNOSTICS : String := "NO_MOVEONLY_DIAGNOSTICS"

/-- A SIL function as the orchestrator observes it: a CFG (entry block
plus the remaining blocks), its semantics attributes, its reference
count, its linkage, and whether its body was deserialized in canonical
(already validated) form. -/
structure SILFunction where
  name : Nat
  entry : Block
  restBlocks : List Block
  attrs : List String
  refCount : Nat
  linkage : SILLinkage
  deserializedCanonical : Bool
deriving DecidableEq, Repr

/-- `SILFunction::hasSemanticsAttr`. -/
def hasSemanticsAttr (fn : SILFunction) (a : String) : Bool :=
  fn.attrs.contains a

/-- The list of all blocks of the function, entry first. -/
def SILFunction.blocks (fn : SILFunction) : List Block :=
  fn.entry :: fn.restBlocks

/-- The compilation context the orchestrator queries: whether the
move-only language feature is enabled (`ASTContext::supportsMoveOnlyTypes`),
whether the module is a whole-module build (`SILModule::isWholeModule`),
and the module's IR stage (`SILModule::getStage`). -/
structure ModuleContext where
  supportsMoveOnlyTypes : Bool
  isWholeModule : Bool
  stage : SILStage
deriving DecidableEq, Repr

/-- Modelled from the spec: the output of one per-value-class candidate
search (`searchForCandidateObjectMarkUnresolvedNonCopyableValueInsts` /
`searchForCandidateAddressMarkUnresolvedNonCopyableValueInsts`, whose
code is outside the verified source).  Per spec §4.3 the search produces
the duplicate-free worklist of introduction markers and emits some number
of diagnostics into the shared diagnostic emitter; its boolean output
reports whether any diagnostic was emitted during the search. -/
structure SearchResult where
  worklist : List Inst
  diagsAdded : Nat
deriving DecidableEq, Repr

/-- The boolean output of a candidate search: whether any diagnostic was
emitted during the search (spec §4.3). -/
def SearchResult.emittedAny (r : SearchResult) : Bool :=
  r.diagsAdded != 0

/-- Modelled from the spec: the outcome of one checking engine run
(`MoveOnlyObjectChecker::check` / `MoveOnlyAddressChecker::check`, code
outside the verified source).  Per spec §4.4/§4.5 an engine may mutate
the IR, reports whether it did, and emits diagnostics into the shared
emitter. -/
structure EngineResult where
  fn : SILFunction
  changed : Bool
  diagsAdded : Nat
deriving DecidableEq, Repr

/-- Modelled from the spec: the outcome of repair/cleanup
(`cleanupNonCopyableCopiesAfterEmittingDiagnostic`, code outside the
verified source).  Per spec §4.7 it rewrites remaining illegal implicit
duplications and returns whether it mutated the IR; it emits no
diagnostics. -/
structure CleanupResult where
  fn : SILFunction
  changed : Bool
deriving DecidableEq, Repr

/-- The external collaborators consumed by the orchestrator, modelled
from the spec as oracles:
* `possiblyUsedExternally` models `isPossiblyUsedExternally(linkage, isWholeModule)`;
* `searchObjects` / `searchAddresses` model the two candidate searches (spec §4.3);
* `objectCheck` / `addressCheck` model the two checking engines (spec §4.4/§4.5),
  taking the current function and the worklist;
* `cleanupCopies` models repair/cleanup (spec §4.7);
* `emitMissedCopyErrors` models the fallback sweep
  (`emitCheckerMissedCopyOfNonCopyableTypeErrors`), returning the number of
  diagnostics it emits (spec §4.6 step 5); it does not mutate the IR. -/
structure Env where
  possiblyUsedExternally : SILLinkage → Bool → Bool
  searchObjects : SILFunction → SearchResult
  searchAddresses : SILFunction → SearchResult
  objectCheck : SILFunction → List Inst → EngineResult
  addressCheck : SILFunction → List Inst → EngineResult
  cleanupCopies : SILFunction → CleanupResult
  emitMissedCopyErrors : SILFunction → Nat

/-- The mutable state of a `MoveOnlyChecker` during the normal-checking
phases: the function being checked, the diagnostic emitter's count
(spec §4.1: a fresh emitter starts at zero and only grows), the
`madeChange` accumulator, a trace of which engines ran, and the list of
telemetry booleans written to the debug log (`LLVM_DEBUG`). -/
structure CheckerState where
  fn : SILFunction
  diagCount : Nat
  madeChange : Bool
  objEngineRan : Bool
  addrEngineRan : Bool
  logLines : List Bool
deriving Repr

/-- `DiagnosticEmitter::emittedDiagnostic()`: whether the count is
nonzero (spec §4.1). -/
def emittedDiagnostic (s : CheckerState) : Bool :=
  s.diagCount != 0

/-- The state of a freshly constructed `MoveOnlyChecker` for `fn`:
a fresh diagnostic emitter and `madeChange = false`. -/
def initState (fn : SILFunction) : CheckerState :=
  { fn := fn, diagCount := 0, madeChange := false,
    objEngineRan := false, addrEngineRan := false, logLines := [] }

/-- `MoveOnlyChecker::checkObjects`: record the diagnostic count, run the
object-class candidate search OR-ing its boolean output into
`madeChange`, log whether the search emitted a diagnostic, and — unless
the worklist is empty — run the object checking engine, OR-ing its
change flag into `madeChange`. -/
def checkObjects (env : Env) (s : CheckerState) : CheckerState :=
  let diagCount := s.diagCount
  let r := env.searchObjects s.fn
  let diagCount2 := s.diagCount + r.diagsAdded
  let s2 : CheckerState :=
    { s with diagCount := diagCount2,
             madeChange := s.madeChange || r.emittedAny,
             logLines := s.logLines ++ [diagCount != diagCount2] }
  if r.worklist.isEmpty then s2
  else
    let er := env.objectCheck s2.fn r.worklist
    { s2 with fn := er.fn,
              diagCount := s2.diagCount + er.diagsAdded,
              madeChange := s2.madeChange || er.changed,
              objEngineRan := true }

/-- `MoveOnlyChecker::checkAddresses`: record the diagnostic count, run
the address-class candidate search (its boolean output is discarded),
log whether the search emitted a diagnostic, and — unless the worklist
is empty — run the address checking engine, OR-ing its change flag into
`madeChange`. -/
def checkAddresses (env : Env) (s : CheckerState) : CheckerState :=
  let diagCount := s.diagCount
  let r := env.searchAddresses s.fn
  let diagCount2 := s.diagCount + r.diagsAdded
  let s2 : CheckerState :=
    { s with diagCount := diagCount2,
             logLines := s.logLines ++ [diagCount != diagCount2] }
  if r.worklist.isEmpty then s2
  else
    let er := env.addressCheck s2.fn r.worklist
    { s2 with fn := er.fn,
              diagCount := s2.diagCount + er.diagsAdded,
              madeChange := s2.madeChange || er.changed,
              addrEngineRan := true }

/-- The object phase followed by the address phase, starting from a
fresh checker for `fn` (lines 222–227 of the source). -/
def normalPhases (env : Env) (fn : SILFunction) : CheckerState :=
  checkAddresses env (checkObjects env (initState fn))

/-- The location of `entryBB->begin()` (line 180): the first
instruction of the entry block, which is the terminator when the block
holds nothing else. -/
def entryBeginLoc (fn : SILFunction) : Nat :=
  match fn.entry.insts with
  | i :: _ => i.loc
  | [] => fn.entry.term.loc

/-- The deletion fast path's body rewrite (lines 169–192): erase all
non-entry blocks, erase every instruction of the entry block, build one
`unreachable` terminator at the location of the old first instruction,
and downgrade `shared` linkage to `private`. -/
def deleteIfUnusedBody (fn : SILFunction) : SILFunction :=
  let fn2 : SILFunction :=
    { fn with entry := { insts := [],
                         term := { loc := entryBeginLoc fn, kind := .unreachable } },
              restBlocks := [] }
  if fn2.linkage = SILLinkage.shared then
    { fn2 with linkage := SILLinkage.privateL }
  else fn2

/-- The *unused* test of the deletion fast path (lines 165–167):
zero reference count and not possibly used externally under the current
linkage and whole-module setting. -/
def isUnused (env : Env) (ctx : ModuleContext) (fn : SILFunction) : Bool :=
  fn.refCount == 0 && !env.possiblyUsedExternally fn.linkage ctx.isWholeModule

/-- What one invocation of the pass did: the resulting function, the
diagnostic emitter's final count, which `invalidateAnalysis` calls were
made, and which steps ran. -/
structure RunResult where
  fn : SILFunction
  diagCount : Nat
  invalidatedFunctionBody : Bool
  invalidatedInstructions : Bool
  ranCheckObjects : Bool
  ranCheckAddresses : Bool
  objEngineRan : Bool
  addrEngineRan : Bool
  ranMissedCopySweep : Bool
  ranCleanup : Bool
deriving Repr

/-- The change flag the host observes: whether the pass invalidated any
analysis (the pass reports a change exactly by calling
`invalidateAnalysis`). -/
def RunResult.reportedChange (r : RunResult) : Bool :=
  r.invalidatedFunctionBody || r.invalidatedInstructions

/-- A run that did nothing: the function is untouched, no diagnostics,
nothing invalidated, no step ran. -/
def noopResult (fn : SILFunction) : RunResult :=
  { fn := fn, diagCount := 0,
    invalidatedFunctionBody := false, invalidatedInstructions := false,
    ranCheckObjects := false, ranCheckAddresses := false,
    objEngineRan := false, addrEngineRan := false,
    ranMissedCopySweep := false, ranCleanup := false }

/-- The outcome of `MoveOnlyCheckerPass::run`: either a normal result or
a fatal internal-consistency failure (a failed `assert`), which aborts
processing without producing diagnostics. -/
inductive PassOutcome
  | ok (r : RunResult)
  | fatal (msg : String)
deriving Repr

/-- The outcome of the `MOVEONLY_DELETE_IF_UNUSED` step (lines 164–209):
either the body was deleted and the pass terminates, or the step falls
through carrying the function onward. -/
inductive DeleteStepOut
  | deleted (fn : SILFunction)
  | fallthrough (fn : SILFunction)
deriving DecidableEq, Repr

/-- The `MOVEONLY_DELETE_IF_UNUSED` step: when the function carries the
attribute and is unused, delete the body; otherwise fall through with
the function untouched. -/
def deleteIfUnusedStep (env : Env) (ctx : ModuleContext) (fn : SILFunction) :
    DeleteStepOut :=
  if hasSemanticsAttr fn MOVEONLY_DELETE_IF_UNUSED && isUnused env ctx fn then
    DeleteStepOut.deleted (deleteIfUnusedBody fn)
  else
    DeleteStepOut.fallthrough fn

/-- The result of the deletion fast path (lines 168–195): the rewritten
function, no diagnostics, an `invalidateAnalysis(FunctionBody)` call —
the pass's way of reporting a change — and no further step run. -/
def deletedResult (fn2 : SILFunction) : RunResult :=
  { fn := fn2, diagCount := 0,
    invalidatedFunctionBody := true, invalidatedInstructions := false,
    ranCheckObjects := false, ranCheckAddresses := false,
    objEngineRan := false, addrEngineRan := false,
    ranMissedCopySweep := false, ranCleanup := false }

/-- The result of the `NO_MOVEONLY_DIAGNOSTICS` path (lines 213–217):
cleanup runs, `invalidateAnalysis(Instructions)` is called iff cleanup
mutated the IR, no checking runs and no diagnostic is emitted. -/
def suppressedResult (env : Env) (fn : SILFunction) : RunResult :=
  let c := env.cleanupCopies fn
  { fn := c.fn, diagCount := 0,
    invalidatedFunctionBody := false, invalidatedInstructions := c.changed,
    ranCheckObjects := false, ranCheckAddresses := false,
    objEngineRan := false, addrEngineRan := false,
    ranMissedCopySweep := false, ranCleanup := true }

/-- The result of normal checking (lines 219–242): the object and
address phases run; the fallback missed-copy sweep runs iff the emitter
saw no diagnostic; cleanup runs unconditionally, its change flag OR-ed
into `madeChange`; `invalidateAnalysis(Instructions)` is called iff
`madeChange`. -/
def normalResult (env : Env) (fn : SILFunction) : RunResult :=
  let s := normalPhases env fn
  let sweep := !emittedDiagnostic s
  let diagAfterSweep :=
    if sweep then s.diagCount + env.emitMissedCopyErrors s.fn else s.diagCount
  let c := env.cleanupCopies s.fn
  let madeChange := s.madeChange || c.changed
  { fn := c.fn, diagCount := diagAfterSweep,
    invalidatedFunctionBody := false, invalidatedInstructions := madeChange,
    ranCheckObjects := true, ranCheckAddresses := true,
    objEngineRan := s.objEngineRan, addrEngineRan := s.addrEngineRan,
    ranMissedCopySweep := sweep, ranCleanup := true }

/-- `MoveOnlyCheckerPass::run` (lines 148–243), embedded step by step:
1. return (no change) when the move-only feature is disabled;
2. return (no change) when the function was deserialized in canonical form;
3. assert the module is at the `raw` stage — a violation is fatal;
4. the `MOVEONLY_DELETE_IF_UNUSED` fast path: when the function carries
   the attribute and is unused, rewrite the body to a single
   `unreachable` block, downgrade `shared` linkage to `private`,
   invalidate the function body, and return;
5. the `NO_MOVEONLY_DIAGNOSTICS` path: run cleanup, invalidate
   instructions iff it changed the IR, and return;
6. otherwise run normal checking as described at `normalResult`. -/
def runPass (env : Env) (ctx : ModuleContext) (fn : SILFunction) : PassOutcome :=
  if !ctx.supportsMoveOnlyTypes then
    PassOutcome.ok (noopResult fn)
  else if fn.deserializedCanonical then
    PassOutcome.ok (noopResult fn)
  else if ctx.stage ≠ SILStage.raw then
    PassOutcome.fatal "Should only run on Raw SIL"
  else
    match deleteIfUnusedStep env ctx fn with
    | DeleteStepOut.deleted fn2 => PassOutcome.ok (deletedResult fn2)
    | DeleteStepOut.fallthrough fn =>
      if hasSemanticsAttr fn NO_MOVEONLY_DIAGNOSTICS then
        PassOutcome.ok (suppressedResult env fn)
      else
        PassOutcome.ok (normalResult env fn)

/-- An inert environment for concrete evaluation: searches find no
candidates and emit nothing, the engines and cleanup change nothing, the
fallback sweep emits nothing, and no linkage is possibly used
externally. -/
def envInert : Env :=
  { possiblyUsedExternally := fun _ _ => false,
    searchObjects := fun _ => { worklist := [], diagsAdded := 0 },
    searchAddresses := fun _ => { worklist := [], diagsAdded := 0 },
    objectCheck := fun fn _ => { fn := fn, changed := false, diagsAdded := 0 },
    addressCheck := fun fn _ => { fn := fn, changed := false, diagsAdded := 0 },
    cleanupCopies := fun fn => { fn := fn, changed := false },
    emitMissedCopyErrors := fun _ => 0 }

/-- A concrete two-instruction entry block. -/
def block0 : Block :=
  { insts := [{ loc := 10, data := 0 }], term := { loc := 11, kind := TermKind.other 0 } }

/-- A concrete second block. -/
def block1 : Block :=
  { insts := [], term := { loc := 12, kind := TermKind.other 1 } }

/-- A concrete context with the move-only feature enabled, at the raw
stage. -/
def ctx0 : ModuleContext :=
  { supportsMoveOnlyTypes := true, isWholeModule := true, stage := SILStage.raw }

/-- The same context with the move-only feature disabled. -/
def ctxOff : ModuleContext :=
  { ctx0 with supportsMoveOnlyTypes := false }

/-- The same context at the canonical stage. -/
def ctxCanonical : ModuleContext :=
  { ctx0 with stage := SILStage.canonical }

/-- A concrete function with no semantics attributes. -/
def fnPlain : SILFunction :=
  { name := 0, entry := block0, restBlocks := [block1], attrs := [],
    refCount := 1, linkage := SILLinkage.publicL, deserializedCanonical := false }

/-- A concrete unused shared-linkage function marked
`MOVEONLY_DELETE_IF_UNUSED`. -/
def fnDel : SILFunction :=
  { fnPlain with name := 1, attrs := [MOVEONLY_DELETE_IF_UNUSED],
                 refCount := 0, linkage := SILLinkage.shared }

/-- A concrete function marked `NO_MOVEONLY_DIAGNOSTICS`. -/
def fnSup : SILFunction :=
  { fnPlain with name := 2, attrs := [NO_MOVEONLY_DIAGNOSTICS] }

/-- A concrete referenced function carrying both the
`MOVEONLY_DELETE_IF_UNUSED` and `NO_MOVEONLY_DIAGNOSTICS` attributes. -/
def fnBoth : SILFunction :=
  { fnPlain with name := 3,
                 attrs := [MOVEONLY_DELETE_IF_UNUSED, NO_MOVEONLY_DIAGNOSTICS] }

/-- A concrete function deserialized in canonical form. -/
def fnDeser : SILFunction :=
  { fnPlain with name := 4, deserializedCanonical := true }

/-- A concrete referenced function marked `MOVEONLY_DELETE_IF_UNUSED`
(and nothing else). -/
def fnDelUsed : SILFunction :=
  { fnDel with name := 5, refCount := 2 }

/-! Helper lemmas shared by the claim theorems. -/

theorem deleteIfUnusedBody_entry (fn : SILFunction) :
    (deleteIfUnusedBody fn).entry =
      { insts := [], term := { loc := entryBeginLoc fn, kind := TermKind.unreachable } } := by
  simp only [deleteIfUnusedBody]
  split <;> rfl

theorem deleteIfUnusedBody_restBlocks (fn : SILFunction) :
    (deleteIfUnusedBody fn).restBlocks = [] := by
  simp only [deleteIfUnusedBody]
  split <;> rfl

theorem deleteIfUnusedBody_linkage (fn : SILFunction) :
    (deleteIfUnusedBody fn).linkage =
      (if fn.linkage = SILLinkage.shared then SILLinkage.privateL else fn.linkage) := by
  simp only [deleteIfUnusedBody]
  split <;> simp_all

theorem runPass_deleted (env : Env) (ctx : ModuleContext) (fn : SILFunction)
    (h1 : ctx.supportsMoveOnlyTypes = true)
    (h2 : fn.deserializedCanonical = false)
    (h3 : ctx.stage = SILStage.raw)
    (h4 : hasSemanticsAttr fn MOVEONLY_DELETE_IF_UNUSED = true)
    (h5 : isUnused env ctx fn = true) :
    runPass env ctx fn = PassOutcome.ok (deletedResult (deleteIfUnusedBody fn)) := by
  simp [runPass, h1, h2, h3, deleteIfUnusedStep, h4, h5]

theorem runPass_suppressed (env : Env) (ctx : ModuleContext) (fn : SILFunction)
    (h1 : ctx.supportsMoveOnlyTypes = true)
    (h2 : fn.deserializedCanonical = false)
    (h3 : ctx.stage = SILStage.raw)
    (h4 : (hasSemanticsAttr fn MOVEONLY_DELETE_IF_UNUSED && isUnused env ctx fn) = false)
    (h5 : hasSemanticsAttr fn NO_MOVEONLY_DIAGNOSTICS = true) :
    runPass env ctx fn = PassOutcome.ok (suppressedResult env fn) := by
  simp [runPass, h1, h2, h3, deleteIfUnusedStep, h4, h5]

theorem runPass_normal (env : Env) (ctx : ModuleContext) (fn : SILFunction)
    (h1 : ctx.supportsMoveOnlyTypes = true)
    (h2 : fn.deserializedCanonical = false)
    (h3 : ctx.stage = SILStage.raw)
    (h4 : (hasSemanticsAttr fn MOVEONLY_DELETE_IF_UNUSED && isUnused env ctx fn) = false)
    (h5 : hasSemanticsAttr fn NO_MOVEONLY_DIAGNOSTICS = false) :
    runPass env ctx fn = PassOutcome.ok (normalResult env fn) := by
  simp [runPass, h1, h2, h3, deleteIfUnusedStep, h4, h5]

/-! The claim theorems. -/

/-- Claim C7: for every function checked while the move-only language
feature is disabled for the compilation context, the pass terminates
immediately: it emits no diagnostics, mutates no IR, and reports no
change. -/
theorem C7_feature_disabled_noop (env : Env) (ctx : ModuleContext) (fn : SILFunction)
    (h : ctx.supportsMoveOnlyTypes = false) :
    runPass env ctx fn = PassOutcome.ok (noopResult fn) ∧
    (noopResult fn).fn = fn ∧
    (noopResult fn).diagCount = 0 ∧
    (noopResult fn).reportedChange = false := by
  refine ⟨?_, rfl, rfl, rfl⟩
  simp [runPass, h]

/-- Witness for C7: the concrete context `ctxOff` has the feature
disabled, and the pass is a no-op on `fnPlain` there. -/
theorem C7_feature_disabled_noop_witness :
    ctxOff.supportsMoveOnlyTypes = false ∧
    (runPass envInert ctxOff fnPlain = PassOutcome.ok (noopResult fnPlain) ∧
     (noopResult fnPlain).fn = fnPlain ∧
     (noopResult fnPlain).diagCount = 0 ∧
     (noopResult fnPlain).reportedChange = false) :=
  ⟨rfl, C7_feature_disabled_noop envInert ctxOff fnPlain rfl⟩

/-- Claim C8: for every function whose body was deserialized from an
already-validated compilation artifact, running the pass is a no-op: no
diagnostics are emitted, the IR is unchanged, and no change is
reported. -/
theorem C8_deserialized_noop (env : Env) (ctx : ModuleContext) (fn : SILFunction)
    (h : fn.deserializedCanonical = true) :
    runPass env ctx fn = PassOutcome.ok (noopResult fn) ∧
    (noopResult fn).fn = fn ∧
    (noopResult fn).diagCount = 0 ∧
    (noopResult fn).reportedChange = false := by
  refine ⟨?_, rfl, rfl, rfl⟩
  cases hc : ctx.supportsMoveOnlyTypes <;> simp [runPass, hc, h]

/-- Witness for C8: the concrete function `fnDeser` is marked
deserialized-canonical, and the pass is a no-op on it. -/
theorem C8_deserialized_noop_witness :
    fnDeser.deserializedCanonical = true ∧
    (runPass envInert ctx0 fnDeser = PassOutcome.ok (noopResult fnDeser) ∧
     (noopResult fnDeser).fn = fnDeser ∧
     (noopResult fnDeser).diagCount = 0 ∧
     (noopResult fnDeser).reportedChange = false) :=
  ⟨rfl, C8_deserialized_noop envInert ctx0 fnDeser rfl⟩

/-- Claim C9: for every function that passes the feature-enabled and
deserialization gates, proceeding requires the module to be at the raw
stage; a violation is a fatal internal-consistency failure (the
`assert` fires), aborting processing with no normal result and hence no
user diagnostic. -/
theorem C9_wrong_stage_fatal (env : Env) (ctx : ModuleContext) (fn : SILFunction)
    (h1 : ctx.supportsMoveOnlyTypes = true)
    (h2 : fn.deserializedCanonical = false)
    (h3 : ctx.stage ≠ SILStage.raw) :
    runPass env ctx fn = PassOutcome.fatal "Should only run on Raw SIL" := by
  simp [runPass, h1, h2, h3]

/-- Witness for C9: the concrete context `ctxCanonical` is not at the
raw stage, and the pass aborts fatally on `fnPlain` there. -/
theorem C9_wrong_stage_fatal_witness :
    ctxCanonical.supportsMoveOnlyTypes = true ∧
    fnPlain.deserializedCanonical = false ∧
    ctxCanonical.stage ≠ SILStage.raw ∧
    runPass envInert ctxCanonical fnPlain =
      PassOutcome.fatal "Should only run on Raw SIL" :=
  ⟨rfl, rfl, by decide,
   C9_wrong_stage_fatal envInert ctxCanonical fnPlain rfl rfl (by decide)⟩

/-- Claim C1: for every function carrying `MOVEONLY_DELETE_IF_UNUSED`
with zero reference count and not possibly used externally, the pass
replaces the body with a single block holding exactly one `unreachable`
terminator, downgrades the linkage to private when (and only when) it
was `shared`, reports a change, and terminates without running any
checking. -/
theorem C1_delete_if_unused_fast_path (env : Env) (ctx : ModuleContext) (fn : SILFunction)
    (h1 : ctx.supportsMoveOnlyTypes = true)
    (h2 : fn.deserializedCanonical = false)
    (h3 : ctx.stage = SILStage.raw)
    (h4 : hasSemanticsAttr fn MOVEONLY_DELETE_IF_UNUSED = true)
    (h5 : fn.refCount = 0)
    (h6 : env.possiblyUsedExternally fn.linkage ctx.isWholeModule = false) :
    runPass env ctx fn = PassOutcome.ok (deletedResult (deleteIfUnusedBody fn)) ∧
    (deleteIfUnusedBody fn).blocks.length = 1 ∧
    (deleteIfUnusedBody fn).entry.insts = [] ∧
    (deleteIfUnusedBody fn).entry.term.kind = TermKind.unreachable ∧
    (deleteIfUnusedBody fn).linkage =
      (if fn.linkage = SILLinkage.shared then SILLinkage.privateL else fn.linkage) ∧
    (deletedResult (deleteIfUnusedBody fn)).reportedChange = true ∧
    (deletedResult (deleteIfUnusedBody fn)).diagCount = 0 ∧
    (deletedResult (deleteIfUnusedBody fn)).ranCheckObjects = false ∧
    (deletedResult (deleteIfUnusedBody fn)).ranCheckAddresses = false ∧
    (deletedResult (deleteIfUnusedBody fn)).objEngineRan = false ∧
    (deletedResult (deleteIfUnusedBody fn)).addrEngineRan = false ∧
    (deletedResult (deleteIfUnusedBody fn)).ranMissedCopySweep = false ∧
    (deletedResult (deleteIfUnusedBody fn)).ranCleanup = false := by
  have hu : isUnused env ctx fn = true := by simp [isUnused, h5, h6]
  refine ⟨runPass_deleted env ctx fn h1 h2 h3 h4 hu, ?_, ?_, ?_,
          deleteIfUnusedBody_linkage fn, rfl, rfl, rfl, rfl, rfl, rfl, rfl, rfl⟩
  · simp [SILFunction.blocks, deleteIfUnusedBody_restBlocks]
  · simp [deleteIfUnusedBody_entry]
  · simp [deleteIfUnusedBody_entry]

/-- Witness for C1: the concrete unused shared-linkage function `fnDel`
carries the directive; the pass deletes its body and downgrades the
linkage. -/
theorem C1_delete_if_unused_fast_path_witness :
    (hasSemanticsAttr fnDel MOVEONLY_DELETE_IF_UNUSED = true ∧
     fnDel.refCount = 0 ∧
     envInert.possiblyUsedExternally fnDel.linkage ctx0.isWholeModule = false) ∧
    runPass envInert ctx0 fnDel = PassOutcome.ok (deletedResult (deleteIfUnusedBody fnDel)) ∧
    (deleteIfUnusedBody fnDel).linkage = SILLinkage.privateL :=
  ⟨⟨by decide, rfl, rfl⟩,
   (C1_delete_if_unused_fast_path envInert ctx0 fnDel rfl rfl rfl (by decide) rfl rfl).1,
   by decide⟩

/-- Claim C3: for every function carrying `NO_MOVEONLY_DIAGNOSTICS`
that did not take the deletion fast path, the pass skips all checking,
runs repair/cleanup, emits zero diagnostics, and reports a change iff
cleanup mutated the IR. -/
theorem C3_suppress_diagnostics_path (env : Env) (ctx : ModuleContext) (fn : SILFunction)
    (h1 : ctx.supportsMoveOnlyTypes = true)
    (h2 : fn.deserializedCanonical = false)
    (h3 : ctx.stage = SILStage.raw)
    (h4 : (hasSemanticsAttr fn MOVEONLY_DELETE_IF_UNUSED && isUnused env ctx fn) = false)
    (h5 : hasSemanticsAttr fn NO_MOVEONLY_DIAGNOSTICS = true) :
    runPass env ctx fn = PassOutcome.ok (suppressedResult env fn) ∧
    (suppressedResult env fn).ranCheckObjects = false ∧
    (suppressedResult env fn).ranCheckAddresses = false ∧
    (suppressedResult env fn).objEngineRan = false ∧
    (suppressedResult env fn).addrEngineRan = false ∧
    (suppressedResult env fn).ranMissedCopySweep = false ∧
    (suppressedResult env fn).ranCleanup = true ∧
    (suppressedResult env fn).diagCount = 0 ∧
    (suppressedResult env fn).fn = (env.cleanupCopies fn).fn ∧
    (suppressedResult env fn).reportedChange = (env.cleanupCopies fn).changed :=
  ⟨runPass_suppressed env ctx fn h1 h2 h3 h4 h5,
   rfl, rfl, rfl, rfl, rfl, rfl, rfl, rfl, rfl⟩

/-- Witness for C3: the concrete function `fnSup` carries the
suppression attribute only; the pass takes the silent-cleanup path. -/
theorem C3_suppress_diagnostics_path_witness :
    ((hasSemanticsAttr fnSup MOVEONLY_DELETE_IF_UNUSED && isUnused envInert ctx0 fnSup) = false ∧
     hasSemanticsAttr fnSup NO_MOVEONLY_DIAGNOSTICS = true) ∧
    runPass envInert ctx0 fnSup = PassOutcome.ok (suppressedResult envInert fnSup) ∧
    (suppressedResult envInert fnSup).diagCount = 0 :=
  ⟨⟨by decide, by decide⟩,
   (C3_suppress_diagnostics_path envInert ctx0 fnSup rfl rfl rfl (by decide) (by decide)).1,
   rfl⟩

/-- Claim C10: for every function carrying both directives, the
delete-if-unused gate is evaluated first: when unused, the body is
deleted and the pass terminates without ever running the
suppress-diagnostics cleanup; the suppression path runs only when the
function is not unused. -/
theorem C10_delete_gate_evaluated_first (env : Env) (ctx : ModuleContext) (fn : SILFunction)
    (h1 : ctx.supportsMoveOnlyTypes = true)
    (h2 : fn.deserializedCanonical = false)
    (h3 : ctx.stage = SILStage.raw)
    (h4 : hasSemanticsAttr fn MOVEONLY_DELETE_IF_UNUSED = true)
    (h5 : hasSemanticsAttr fn NO_MOVEONLY_DIAGNOSTICS = true) :
    runPass env ctx fn =
      PassOutcome.ok (if isUnused env ctx fn then deletedResult (deleteIfUnusedBody fn)
                      else suppressedResult env fn) ∧
    (deletedResult (deleteIfUnusedBody fn)).ranCleanup = false ∧
    (deletedResult (deleteIfUnusedBody fn)).reportedChange = true ∧
    (suppressedResult env fn).ranCleanup = true ∧
    (suppressedResult env fn).ranCheckObjects = false ∧
    (suppressedResult env fn).ranCheckAddresses = false := by
  refine ⟨?_, rfl, rfl, rfl, rfl, rfl⟩
  cases hu : isUnused env ctx fn
  · simp [runPass_suppressed env ctx fn h1 h2 h3 (by simp [hu]) h5, hu]
  · simp [runPass_deleted env ctx fn h1 h2 h3 h4 hu, hu]

/-- Witness for C10: the concrete referenced function `fnBoth` carries
both directives; the suppression path is taken because it is not
unused. -/
theorem C10_delete_gate_evaluated_first_witness :
    (hasSemanticsAttr fnBoth MOVEONLY_DELETE_IF_UNUSED = true ∧
     hasSemanticsAttr fnBoth NO_MOVEONLY_DIAGNOSTICS = true) ∧
    runPass envInert ctx0 fnBoth =
      PassOutcome.ok (if isUnused envInert ctx0 fnBoth
                      then deletedResult (deleteIfUnusedBody fnBoth)
                      else suppressedResult envInert fnBoth) :=
  ⟨⟨by decide, by decide⟩,
   (C10_delete_gate_evaluated_first envInert ctx0 fnBoth rfl rfl rfl
     (by decide) (by decide)).1⟩

/-- Counterexample to claim C6 as stated: the concrete function
`fnBoth` carries `MOVEONLY_DELETE_IF_UNUSED`, is not unused (its
reference count is 1), yet the pass does not fall through to normal
checking — it terminates through the `NO_MOVEONLY_DIAGNOSTICS` path
without running either checking phase. -/
theorem C6_counterexample_suppression_preempts_checking :
    hasSemanticsAttr fnBoth MOVEONLY_DELETE_IF_UNUSED = true ∧
    isUnused envInert ctx0 fnBoth = false ∧
    runPass envInert ctx0 fnBoth = PassOutcome.ok (suppressedResult envInert fnBoth) ∧
    (suppressedResult envInert fnBoth).ranCheckObjects = false ∧
    (suppressedResult envInert fnBoth).ranCheckAddresses = false := by
  refine ⟨by decide, rfl, ?_, rfl, rfl⟩
  rfl

/-- Claim C6 (amended): for every function carrying
`MOVEONLY_DELETE_IF_UNUSED` that is not unused, the deletion step
leaves its body unchanged and the pass falls through rather than
terminating there; normal checking runs when the function does not also
carry `NO_MOVEONLY_DIAGNOSTICS` (with that directive present the silent
cleanup path runs instead). -/
theorem C6_amended_not_unused_falls_through (env : Env) (ctx : ModuleContext) (fn : SILFunction)
    (h1 : ctx.supportsMoveOnlyTypes = true)
    (h2 : fn.deserializedCanonical = false)
    (h3 : ctx.stage = SILStage.raw)
    (h4 : hasSemanticsAttr fn MOVEONLY_DELETE_IF_UNUSED = true)
    (h5 : isUnused env ctx fn = false) :
    deleteIfUnusedStep env ctx fn = DeleteStepOut.fallthrough fn ∧
    runPass env ctx fn =
      PassOutcome.ok (if hasSemanticsAttr fn NO_MOVEONLY_DIAGNOSTICS
                      then suppressedResult env fn else normalResult env fn) ∧
    (normalResult env fn).ranCheckObjects = true ∧
    (normalResult env fn).ranCheckAddresses = true := by
  have hstep : deleteIfUnusedStep env ctx fn = DeleteStepOut.fallthrough fn := by
    simp [deleteIfUnusedStep, h5]
  refine ⟨hstep, ?_, rfl, rfl⟩
  cases hs : hasSemanticsAttr fn NO_MOVEONLY_DIAGNOSTICS
  · simp [runPass_normal env ctx fn h1 h2 h3 (by simp [h5]) hs, hs]
  · simp [runPass_suppressed env ctx fn h1 h2 h3 (by simp [h5]) hs, hs]

/-- Witness for the amended C6: the concrete referenced function
`fnDelUsed` carries only the deletion directive; the step falls through
and normal checking runs. -/
theorem C6_amended_not_unused_falls_through_witness :
    (hasSemanticsAttr fnDelUsed MOVEONLY_DELETE_IF_UNUSED = true ∧
     isUnused envInert ctx0 fnDelUsed = false) ∧
    deleteIfUnusedStep envInert ctx0 fnDelUsed = DeleteStepOut.fallthrough fnDelUsed :=
  ⟨⟨by decide, rfl⟩,
   (C6_amended_not_unused_falls_through envInert ctx0 fnDelUsed rfl rfl rfl
     (by decide) rfl).1⟩

/-! Decomposition lemmas for the two checking phases. -/

theorem checkObjects_fields (env : Env) (s : CheckerState) :
    (checkObjects env s).madeChange =
      (s.madeChange || (env.searchObjects s.fn).emittedAny ||
        (!(env.searchObjects s.fn).worklist.isEmpty &&
          (env.objectCheck s.fn (env.searchObjects s.fn).worklist).changed)) ∧
    (checkObjects env s).objEngineRan =
      (s.objEngineRan || !(env.searchObjects s.fn).worklist.isEmpty) ∧
    (checkObjects env s).addrEngineRan = s.addrEngineRan := by
  unfold checkObjects
  cases he : (env.searchObjects s.fn).worklist.isEmpty <;> simp [he]

theorem checkAddresses_fields (env : Env) (s : CheckerState) :
    (checkAddresses env s).madeChange =
      (s.madeChange ||
        (!(env.searchAddresses s.fn).worklist.isEmpty &&
          (env.addressCheck s.fn (env.searchAddresses s.fn).worklist).changed)) ∧
    (checkAddresses env s).addrEngineRan =
      (s.addrEngineRan || !(env.searchAddresses s.fn).worklist.isEmpty) ∧
    (checkAddresses env s).objEngineRan = s.objEngineRan := by
  unfold checkAddresses
  cases he : (env.searchAddresses s.fn).worklist.isEmpty <;> simp [he]

theorem checkObjects_fn (env : Env) (s : CheckerState) :
    (checkObjects env s).fn =
      (if (env.searchObjects s.fn).worklist.isEmpty then s.fn
       else (env.objectCheck s.fn (env.searchObjects s.fn).worklist).fn) := by
  unfold checkObjects
  cases he : (env.searchObjects s.fn).worklist.isEmpty <;> simp [he]

/-- Claim C2: for every function that reaches normal checking, the
fallback missed-copy sweep runs if and only if the diagnostic emitter
reports that zero diagnostics were emitted during the object and
address checking phases. -/
theorem C2_fallback_sweep_iff_no_diagnostics (env : Env) (ctx : ModuleContext) (fn : SILFunction)
    (h1 : ctx.supportsMoveOnlyTypes = true)
    (h2 : fn.deserializedCanonical = false)
    (h3 : ctx.stage = SILStage.raw)
    (h4 : (hasSemanticsAttr fn MOVEONLY_DELETE_IF_UNUSED && isUnused env ctx fn) = false)
    (h5 : hasSemanticsAttr fn NO_MOVEONLY_DIAGNOSTICS = false) :
    runPass env ctx fn = PassOutcome.ok (normalResult env fn) ∧
    (normalResult env fn).ranMissedCopySweep = !emittedDiagnostic (normalPhases env fn) ∧
    ((normalResult env fn).ranMissedCopySweep = true ↔
      (normalPhases env fn).diagCount = 0) := by
  refine ⟨runPass_normal env ctx fn h1 h2 h3 h4 h5, rfl, ?_⟩
  show (!emittedDiagnostic (normalPhases env fn)) = true ↔ (normalPhases env fn).diagCount = 0
  simp [emittedDiagnostic]

/-- Witness for C2: on `fnPlain` with the inert environment no
diagnostic is emitted, so the fallback sweep runs. -/
theorem C2_fallback_sweep_iff_no_diagnostics_witness :
    ((hasSemanticsAttr fnPlain MOVEONLY_DELETE_IF_UNUSED && isUnused envInert ctx0 fnPlain) = false ∧
     hasSemanticsAttr fnPlain NO_MOVEONLY_DIAGNOSTICS = false) ∧
    ((normalResult envInert fnPlain).ranMissedCopySweep = true ↔
      (normalPhases envInert fnPlain).diagCount = 0) :=
  ⟨⟨by decide, by decide⟩,
   (C2_fallback_sweep_iff_no_diagnostics envInert ctx0 fnPlain rfl rfl rfl
     (by decide) (by decide)).2.2⟩

/-- Claim C5: for every function processed through normal checking,
repair/cleanup runs unconditionally after the two checking phases —
no hypothesis about emitted diagnostics is needed — and its change flag
is OR-merged into the overall change result reported to the host. -/
theorem C5_cleanup_unconditional_change_merged (env : Env) (ctx : ModuleContext) (fn : SILFunction)
    (h1 : ctx.supportsMoveOnlyTypes = true)
    (h2 : fn.deserializedCanonical = false)
    (h3 : ctx.stage = SILStage.raw)
    (h4 : (hasSemanticsAttr fn MOVEONLY_DELETE_IF_UNUSED && isUnused env ctx fn) = false)
    (h5 : hasSemanticsAttr fn NO_MOVEONLY_DIAGNOSTICS = false) :
    runPass env ctx fn = PassOutcome.ok (normalResult env fn) ∧
    (normalResult env fn).ranCleanup = true ∧
    (normalResult env fn).fn = (env.cleanupCopies (normalPhases env fn).fn).fn ∧
    (normalResult env fn).reportedChange =
      ((normalPhases env fn).madeChange ||
        (env.cleanupCopies (normalPhases env fn).fn).changed) :=
  ⟨runPass_normal env ctx fn h1 h2 h3 h4 h5, rfl, rfl, rfl⟩

/-- Witness for C5 on `fnPlain` with the inert environment. -/
theorem C5_cleanup_unconditional_change_merged_witness :
    ((hasSemanticsAttr fnPlain MOVEONLY_DELETE_IF_UNUSED && isUnused envInert ctx0 fnPlain) = false ∧
     hasSemanticsAttr fnPlain NO_MOVEONLY_DIAGNOSTICS = false) ∧
    (normalResult envInert fnPlain).ranCleanup = true :=
  ⟨⟨by decide, by decide⟩,
   (C5_cleanup_unconditional_change_merged envInert ctx0 fnPlain rfl rfl rfl
     (by decide) (by decide)).2.1⟩

/-- An environment identical to `envInert` except that the object-class
candidate search emits one diagnostic (so its boolean output is true)
while still producing an empty worklist; no component mutates the IR. -/
def envC4 : Env :=
  { envInert with searchObjects := fun _ => { worklist := [], diagsAdded := 1 } }

/-- Counterexample to claim C4 as stated: under `envC4` nothing ever
mutates the IR — both worklists are empty so neither engine runs, and
cleanup reports no change — yet the pass reports a change to the host,
because the boolean output of the object-class candidate search is
OR-merged into `madeChange` (line 98 of the source). Under `envInert`,
identical except that the search emits no diagnostic, no change is
reported. So that boolean does influence the change flag. -/
theorem C4_counterexample_search_boolean_feeds_change_flag :
    (envC4.searchObjects fnPlain).emittedAny = true ∧
    runPass envC4 ctx0 fnPlain = PassOutcome.ok (normalResult envC4 fnPlain) ∧
    (normalResult envC4 fnPlain).fn = fnPlain ∧
    (normalResult envC4 fnPlain).objEngineRan = false ∧
    (normalResult envC4 fnPlain).addrEngineRan = false ∧
    (envC4.cleanupCopies (normalPhases envC4 fnPlain).fn).changed = false ∧
    (normalResult envC4 fnPlain).reportedChange = true ∧
    (envInert.searchObjects fnPlain).emittedAny = false ∧
    runPass envInert ctx0 fnPlain = PassOutcome.ok (normalResult envInert fnPlain) ∧
    (normalResult envInert fnPlain).fn = fnPlain ∧
    (normalResult envInert fnPlain).reportedChange = false :=
  ⟨rfl, rfl, rfl, rfl, rfl, rfl, rfl, rfl, rfl, rfl, rfl⟩

/-- Claim C4 (amended): for every function processed through normal
checking, which engines run is determined solely by worklist emptiness,
and the change flag reported to the host is exactly the OR of the
object-class search's boolean output, the two engines' change flags,
and cleanup's change flag — so the address-class search's boolean and
the logged telemetry booleans never influence control flow or the
change flag, but the object-class search's boolean output is OR-merged
into the change flag rather than being used only for logging. -/
theorem C4_amended_change_flag_sources (env : Env) (ctx : ModuleContext) (fn : SILFunction)
    (h1 : ctx.supportsMoveOnlyTypes = true)
    (h2 : fn.deserializedCanonical = false)
    (h3 : ctx.stage = SILStage.raw)
    (h4 : (hasSemanticsAttr fn MOVEONLY_DELETE_IF_UNUSED && isUnused env ctx fn) = false)
    (h5 : hasSemanticsAttr fn NO_MOVEONLY_DIAGNOSTICS = false) :
    runPass env ctx fn = PassOutcome.ok (normalResult env fn) ∧
    (normalResult env fn).objEngineRan = !(env.searchObjects fn).worklist.isEmpty ∧
    (normalResult env fn).addrEngineRan =
      !(env.searchAddresses (checkObjects env (initState fn)).fn).worklist.isEmpty ∧
    (normalResult env fn).reportedChange =
      ((env.searchObjects fn).emittedAny ||
        (!(env.searchObjects fn).worklist.isEmpty &&
          (env.objectCheck fn (env.searchObjects fn).worklist).changed) ||
        (!(env.searchAddresses (checkObjects env (initState fn)).fn).worklist.isEmpty &&
          (env.addressCheck (checkObjects env (initState fn)).fn
            (env.searchAddresses (checkObjects env (initState fn)).fn).worklist).changed) ||
        (env.cleanupCopies (normalPhases env fn).fn).changed) := by
  obtain ⟨ho1, ho2, ho3⟩ := checkObjects_fields env (initState fn)
  obtain ⟨ha1, ha2, ha3⟩ := checkAddresses_fields env (checkObjects env (initState fn))
  refine ⟨runPass_normal env ctx fn h1 h2 h3 h4 h5, ?_, ?_, ?_⟩
  · show (normalPhases env fn).objEngineRan = _
    rw [normalPhases, ha3, ho2]
    simp [initState]
  · show (normalPhases env fn).addrEngineRan = _
    rw [normalPhases, ha2, ho3]
    simp [initState]
  · show ((normalPhases env fn).madeChange ||
      (env.cleanupCopies (normalPhases env fn).fn).changed) = _
    rw [normalPhases, ha1, ho1]
    simp [initState, Bool.or_assoc]

/-- Witness for the amended C4 at the inert environment on `fnPlain`. -/
theorem C4_amended_change_flag_sources_witness :
    ((hasSemanticsAttr fnPlain MOVEONLY_DELETE_IF_UNUSED && isUnused envInert ctx0 fnPlain) = false ∧
     hasSemanticsAttr fnPlain NO_MOVEONLY_DIAGNOSTICS = false) ∧
    runPass envInert ctx0 fnPlain = PassOutcome.ok (normalResult envInert fnPlain) :=
  ⟨⟨by decide, by decide⟩,
   (C4_amended_change_flag_sources envInert ctx0 fnPlain rfl rfl rfl
     (by decide) (by decide)).1⟩

end MoveOnly
